import Mathlib

/-!
Verification development for the hylaean_path orbital simulation.

The repository's visible JavaScript (`src/main.js` and its variants) drives a
simulation object through four operations: `new Simulation(count)`, `step()`,
`get_positions()` and `get_proximity_warnings()`.  The engine behind those
operations lives in a compiled WebAssembly package that is not part of the
visible sources, so the engine itself is modelled here from the specification
(spec.md sections 3, 4, 6 and 7) as a shallow embedding over the real numbers.
Definitions whose doc comments start with `Modelled from the spec:` embed that
missing engine code, faithful to the spec's words.
-/

noncomputable section

/-- Modelled from the spec (section 3, Vector/State primitives, missing from
`src/`): a 3-D vector of real coordinates, meters, origin at the central body
center. -/
structure Vec3 where
  x : ℝ
  y : ℝ
  z : ℝ

/-- Componentwise vector addition. -/
def vadd (a b : Vec3) : Vec3 := ⟨a.x + b.x, a.y + b.y, a.z + b.z⟩

/-- Scalar multiple of a vector. -/
def smul (c : ℝ) (v : Vec3) : Vec3 := ⟨c * v.x, c * v.y, c * v.z⟩

/-- Squared Euclidean norm. -/
def normSq (v : Vec3) : ℝ := v.x ^ 2 + v.y ^ 2 + v.z ^ 2

/-- Euclidean norm. -/
def vnorm (v : Vec3) : ℝ := Real.sqrt (normSq v)

/-- Squared distance between two points. -/
def distSq (a b : Vec3) : ℝ :=
  (a.x - b.x) ^ 2 + (a.y - b.y) ^ 2 + (a.z - b.z) ^ 2

/-- The zero vector (the central body center). -/
def vzero : Vec3 := ⟨0, 0, 0⟩

/-- Modelled from the spec (section 4.1, the Central Body Model, missing from
`src/`): the gravitational parameter μ, a fixed constant for the simulation's
lifetime.  The concrete value is the implementation-chosen Earth-like default
(spec section 9 leaves the constant to the implementer). -/
def mu : ℝ := 398600000000000

/-- Modelled from the spec (section 4.1, the Central Body Model, missing from
`src/`): the central body radius R in meters.  The value matches the body
rendered by `src/main.js` (radius 6,700,000 m). -/
def R : ℝ := 6700000

/-- Modelled from the spec (section 4.1, missing from `src/`):
`acceleration_at(position)` computes the instantaneous gravitational
acceleration toward the body center by the inverse-square law:
magnitude `μ / |p|²`, direction `−p / |p|`. -/
def acceleration_at (p : Vec3) : Vec3 :=
  smul (mu / (vnorm p) ^ 2) (smul (-1 / vnorm p) p)

/-- Modelled from the spec (section 3, missing from `src/`): one satellite's
state — position and velocity in meters resp. meters/second — together with
the inert flag demanded by the edge-case policy of spec section 4.3. -/
structure Sat where
  pos : Vec3
  vel : Vec3
  inert : Bool

/-- The default satellite used by out-of-range list reads. -/
def defaultSat : Sat := ⟨vzero, vzero, false⟩

/-- Modelled from the spec (section 4.3, step 2, missing from `src/`): the
semi-implicit velocity update `v' = v + a₀·Δt`, with `a₀` the acceleration at
the current position. -/
def nominalVel (dt : ℝ) (t : Sat) : Vec3 :=
  vadd t.vel (smul dt (acceleration_at t.pos))

/-- Modelled from the spec (section 4.3, step 3, missing from `src/`): the
semi-implicit position update `p' = p + v'·Δt`, driven by the *new*
velocity. -/
def nominalPos (dt : ℝ) (t : Sat) : Vec3 :=
  vadd t.pos (smul dt (nominalVel dt t))

open Classical in
/-- Modelled from the spec (section 4.3, the Orbital Propagator, missing from
`src/`): the per-satellite semi-implicit (symplectic) Euler update.  Order
matters: acceleration `a₀` at the current position, then velocity `v' = v +
a₀·Δt`, then position `p' = p + v'·Δt` (the *new* velocity drives the position
update).  Edge-case policy: if the resulting distance from the body center
falls at or below R, the satellite is flagged inert and its state frozen
(spec 4.3: "mark the satellite inert / stop integrating its state"), so the
distance never reaches zero; an already-inert satellite is left unchanged. -/
def advanceSat (dt : ℝ) (s : Sat) : Sat :=
  if s.inert then s
  else if normSq (nominalPos dt s) ≤ R ^ 2 then { s with inert := true }
  else { pos := nominalPos dt s, vel := nominalVel dt s, inert := false }

open Classical in
/-- Modelled from the spec (section 4.4, the Proximity Detector, missing from
`src/`): `scan(sats, threshold)` returns the canonical set of identities of
satellites lying strictly within `threshold` of at least one other satellite,
evaluated against the current positions only.  Comparison is done on squared
distances, equivalent for a positive threshold. -/
def scan (sats : List Sat) (th : ℝ) : Finset ℕ :=
  (Finset.range sats.length).filter (fun i =>
    ∃ j ∈ Finset.range sats.length, j ≠ i ∧
      distSq (sats.getD i defaultSat).pos (sats.getD j defaultSat).pos < th ^ 2)

/-- Modelled from the spec (sections 2, 3 and 4.5, missing from `src/`): the
Simulation Facade's state — satellite count, fixed timestep Δt, proximity
threshold, the identity-ordered registry, the clock's elapsed time, and the
proximity set cached by the last `step()`. -/
structure SimState where
  count : ℕ
  dt : ℝ
  threshold : ℝ
  sats : List Sat
  elapsed : ℝ
  cachedWarnings : Finset ℕ

/-- Modelled from the spec (section 4.2, the Satellite Registry, missing from
`src/`): satellite `i`'s deterministic initial orbit radius.  Spec section 9
leaves the exact distribution to the implementer; the chosen default places
satellite `i` on a circular orbit of radius `R + 300000 + 1000·i` meters, so
all satellites start above the surface and no two start coincident. -/
def initRadius (i : ℕ) : ℝ := R + 300000 + 1000 * i

/-- Modelled from the spec (section 4.2, missing from `src/`): satellite `i`'s
initial state — position at distance `initRadius i` on the x-axis, velocity
tangential with circular-orbit magnitude `sqrt (μ / r)`. -/
def mkSat (i : ℕ) : Sat :=
  { pos := ⟨initRadius i, 0, 0⟩
    vel := ⟨0, Real.sqrt (mu / initRadius i), 0⟩
    inert := false }

/-- Modelled from the spec (section 4.5, missing from `src/`): the simulation
state produced by a successful construction — `c` satellites generated by the
registry, clock at zero, proximity set of the initial positions cached. -/
def mkState (c : ℕ) (dt th : ℝ) : SimState :=
  { count := c
    dt := dt
    threshold := th
    sats := (List.range c).map mkSat
    elapsed := 0
    cachedWarnings := scan ((List.range c).map mkSat) th }

/-- Modelled from the spec (sections 4.5 and 7, missing from `src/`): the
error taxonomy — InvalidConfiguration is detected at construction. -/
inductive SimError where
  | InvalidConfiguration
deriving DecidableEq

/-- Modelled from the spec (sections 4.5, 6 and 7, missing from `src/`): the
implementation-defined maximum satellite count accepted at construction. -/
def MAX_SATELLITES : ℕ := 100000

open Classical in
/-- Modelled from the spec (sections 4.5 and 7, missing from `src/`):
construction fails fast with InvalidConfiguration — and no simulation state is
produced — when the satellite count is zero or exceeds the maximum, or the
timestep or the proximity threshold is non-positive; otherwise it builds the
registry, clock and caches. -/
def Simulation.new (c : ℕ) (dt th : ℝ) : Except SimError SimState :=
  if c = 0 ∨ MAX_SATELLITES < c ∨ dt ≤ 0 ∨ th ≤ 0 then
    .error .InvalidConfiguration
  else
    .ok (mkState c dt th)

/-- Modelled from the spec (section 4.5, missing from `src/`): `step()`
advances the clock by Δt, invokes the Propagator (4.3) on every satellite of
the registry, then the Detector (4.4), and caches the proximity set; it is a
pure state transition (side effect only, no return value). -/
def step (s : SimState) : SimState :=
  let sats' := s.sats.map (advanceSat s.dt)
  { s with
    sats := sats'
    elapsed := s.elapsed + s.dt
    cachedWarnings := scan sats' s.threshold }

/-- Modelled from the spec (sections 4.5 and 6, missing from `src/`):
`get_positions()` returns the identity-ordered sequence of 3-element position
triples of the most recent state. -/
def get_positions (s : SimState) : List (ℝ × ℝ × ℝ) :=
  s.sats.map (fun t => (t.pos.x, t.pos.y, t.pos.z))

/-- Modelled from the spec (sections 4.5 and 6, missing from `src/`):
`get_proximity_warnings()` returns the cached proximity set as a duplicate-free
sequence of identities (sorted ascending, one canonical order of the set). -/
def get_proximity_warnings (s : SimState) : List ℕ :=
  Finset.sort (· ≤ ·) s.cachedWarnings

/-- A facade method call, modelled state-passing style: `get_positions` as
invoked by the driver returns its value together with the (unchanged)
simulation state. -/
def get_positions_call (s : SimState) : List (ℝ × ℝ × ℝ) × SimState :=
  (get_positions s, s)

/-- A facade method call, modelled state-passing style: `get_proximity_warnings`
as invoked by the driver returns its value together with the (unchanged)
simulation state. -/
def get_proximity_warnings_call (s : SimState) : List ℕ × SimState :=
  (get_proximity_warnings s, s)

/-- The satellite of identity `i` in state `s`. -/
def satAt (s : SimState) (i : ℕ) : Sat := s.sats.getD i defaultSat

lemma step_sats (s : SimState) : (step s).sats = s.sats.map (advanceSat s.dt) := rfl

lemma step_sats_length (s : SimState) : (step s).sats.length = s.sats.length := by
  simp [step]

lemma step_dt (s : SimState) : (step s).dt = s.dt := rfl

lemma step_threshold (s : SimState) : (step s).threshold = s.threshold := rfl

lemma step_count (s : SimState) : (step s).count = s.count := rfl

lemma step_elapsed (s : SimState) : (step s).elapsed = s.elapsed + s.dt := rfl

lemma step_cachedWarnings (s : SimState) :
    (step s).cachedWarnings = scan (step s).sats (step s).threshold := rfl

lemma iter_dt (s : SimState) (k : ℕ) : (step^[k] s).dt = s.dt := by
  induction k with
  | zero => rfl
  | succ n ih => rw [Function.iterate_succ_apply', step_dt, ih]

lemma iter_threshold (s : SimState) (k : ℕ) : (step^[k] s).threshold = s.threshold := by
  induction k with
  | zero => rfl
  | succ n ih => rw [Function.iterate_succ_apply', step_threshold, ih]

lemma iter_count (s : SimState) (k : ℕ) : (step^[k] s).count = s.count := by
  induction k with
  | zero => rfl
  | succ n ih => rw [Function.iterate_succ_apply', step_count, ih]

lemma iter_sats_length (s : SimState) (k : ℕ) :
    (step^[k] s).sats.length = s.sats.length := by
  induction k with
  | zero => rfl
  | succ n ih => rw [Function.iterate_succ_apply', step_sats_length, ih]

lemma mkState_sats_length (c : ℕ) (dt th : ℝ) : (mkState c dt th).sats.length = c := by
  simp [mkState]

lemma mkState_count (c : ℕ) (dt th : ℝ) : (mkState c dt th).count = c := rfl

lemma mkState_dt (c : ℕ) (dt th : ℝ) : (mkState c dt th).dt = dt := rfl

lemma mkState_threshold (c : ℕ) (dt th : ℝ) : (mkState c dt th).threshold = th := rfl

lemma new_ok (c : ℕ) (dt th : ℝ)
    (h : ¬(c = 0 ∨ MAX_SATELLITES < c ∨ dt ≤ 0 ∨ th ≤ 0)) :
    Simulation.new c dt th = .ok (mkState c dt th) := by
  simp only [Simulation.new, if_neg h]

lemma new_ok_inv {c : ℕ} {dt th : ℝ} {s : SimState}
    (h : Simulation.new c dt th = .ok s) :
    (c ≠ 0 ∧ c ≤ MAX_SATELLITES ∧ 0 < dt ∧ 0 < th) ∧ s = mkState c dt th := by
  by_cases hc : c = 0 ∨ MAX_SATELLITES < c ∨ dt ≤ 0 ∨ th ≤ 0
  · rw [Simulation.new, if_pos hc] at h
    exact absurd h (by simp)
  · rw [Simulation.new, if_neg hc] at h
    push_neg at hc
    exact ⟨⟨hc.1, hc.2.1, hc.2.2.1, hc.2.2.2⟩, (Except.ok.inj h).symm⟩

lemma satAt_step (s : SimState) (i : ℕ) (hi : i < s.sats.length) :
    satAt (step s) i = advanceSat s.dt (satAt s i) := by
  simp only [satAt, step_sats]
  rw [List.getD_eq_getElem _ _ (by simpa using hi), List.getD_eq_getElem _ _ hi]
  simp

lemma satAt_mkState (c : ℕ) (dt th : ℝ) (i : ℕ) (hi : i < c) :
    satAt (mkState c dt th) i = mkSat i := by
  simp only [satAt, mkState]
  rw [List.getD_eq_getElem _ _ (by simpa using hi)]
  simp

lemma scan_mem (sats : List Sat) (th : ℝ) (i : ℕ) :
    i ∈ scan sats th ↔
      i < sats.length ∧ ∃ j, j < sats.length ∧ j ≠ i ∧
        distSq (sats.getD i defaultSat).pos (sats.getD j defaultSat).pos < th ^ 2 := by
  simp [scan]

lemma scan_subset_range (sats : List Sat) (th : ℝ) :
    scan sats th ⊆ Finset.range sats.length := Finset.filter_subset _ _

lemma mu_pos : (0 : ℝ) < mu := by unfold mu; norm_num

lemma R_pos : (0 : ℝ) < R := by unfold R; norm_num

lemma R_lt_initRadius (i : ℕ) : R < initRadius i := by
  have hi : (0 : ℝ) ≤ (i : ℝ) := Nat.cast_nonneg i
  unfold initRadius
  linarith

lemma initRadius_pos (i : ℕ) : 0 < initRadius i := lt_trans R_pos (R_lt_initRadius i)

lemma vnorm_xaxis (r : ℝ) (hr : 0 ≤ r) : vnorm ⟨r, 0, 0⟩ = r := by
  unfold vnorm normSq
  have h : r ^ 2 + 0 ^ 2 + 0 ^ 2 = r ^ 2 := by ring
  rw [h, Real.sqrt_sq hr]

lemma acceleration_xaxis (r : ℝ) (hr : 0 < r) :
    acceleration_at ⟨r, 0, 0⟩ = ⟨-(mu / r ^ 2), 0, 0⟩ := by
  unfold acceleration_at smul
  rw [vnorm_xaxis r hr.le]
  have hr0 : r ≠ 0 := hr.ne'
  simp only [Vec3.mk.injEq]
  refine ⟨?_, by ring, by ring⟩
  field_simp

lemma nominalVel_mkSat (dt : ℝ) (i : ℕ) :
    nominalVel dt (mkSat i) =
      ⟨-(dt * (mu / (initRadius i) ^ 2)), Real.sqrt (mu / initRadius i), 0⟩ := by
  unfold nominalVel mkSat vadd smul
  rw [acceleration_xaxis _ (initRadius_pos i)]
  simp only [Vec3.mk.injEq]
  exact ⟨by ring, by ring, by ring⟩

lemma nominalPos_mkSat (dt : ℝ) (i : ℕ) :
    nominalPos dt (mkSat i) =
      ⟨initRadius i - dt ^ 2 * (mu / (initRadius i) ^ 2),
        dt * Real.sqrt (mu / initRadius i), 0⟩ := by
  unfold nominalPos vadd smul
  rw [nominalVel_mkSat]
  simp only [mkSat, Vec3.mk.injEq]
  exact ⟨by ring, by ring, by ring⟩

lemma normSq_nominalPos_mkSat (dt : ℝ) (i : ℕ) :
    normSq (nominalPos dt (mkSat i)) =
      (initRadius i - dt ^ 2 * (mu / (initRadius i) ^ 2)) ^ 2 +
        dt ^ 2 * (mu / initRadius i) := by
  rw [nominalPos_mkSat]
  unfold normSq
  have hsq : Real.sqrt (mu / initRadius i) ^ 2 = mu / initRadius i :=
    Real.sq_sqrt (div_nonneg mu_pos.le (initRadius_pos i).le)
  rw [mul_pow, hsq]
  ring

lemma getD_map_lt {α β : Type} (f : α → β) (l : List α) (i : ℕ) (hi : i < l.length)
    (d : β) (d' : α) : (l.map f).getD i d = f (l.getD i d') := by
  rw [List.getD_eq_getElem _ _ (by simpa using hi), List.getD_eq_getElem _ _ hi]
  simp

lemma iter_elapsed (s : SimState) (k : ℕ) :
    (step^[k] s).elapsed = s.elapsed + k * s.dt := by
  induction k with
  | zero => simp
  | succ n ih =>
      rw [Function.iterate_succ_apply', step_elapsed, ih, iter_dt]
      push_cast
      ring

lemma advanceSat_inert_pos (dt : ℝ) (t : Sat) :
    (advanceSat dt t).pos = t.pos ∨ (advanceSat dt t).pos = nominalPos dt t := by
  unfold advanceSat
  split_ifs <;> simp

lemma advanceSat_above {dt : ℝ} {t : Sat} (ht : R ^ 2 < normSq t.pos) :
    R ^ 2 < normSq (advanceSat dt t).pos := by
  unfold advanceSat
  split_ifs with h1 h2
  · exact ht
  · exact ht
  · exact lt_of_not_le h2

lemma mkSat_above (i : ℕ) : R ^ 2 < normSq (mkSat i).pos := by
  have h1 := R_pos
  have h2 := R_lt_initRadius i
  unfold mkSat normSq
  simp only
  nlinarith

lemma mkState_above (c : ℕ) (dt th : ℝ) :
    ∀ t ∈ (mkState c dt th).sats, R ^ 2 < normSq t.pos := by
  intro t ht
  simp only [mkState, List.mem_map] at ht
  obtain ⟨i, -, rfl⟩ := ht
  exact mkSat_above i

lemma iter_above (c : ℕ) (dt th : ℝ) (k : ℕ) :
    ∀ t ∈ (step^[k] (mkState c dt th)).sats, R ^ 2 < normSq t.pos := by
  induction k with
  | zero => simpa using mkState_above c dt th
  | succ n ih =>
      rw [Function.iterate_succ_apply', step_sats]
      intro t ht
      simp only [List.mem_map] at ht
      obtain ⟨u, hu, rfl⟩ := ht
      exact advanceSat_above (ih u hu)

lemma cached_eq_scan (c : ℕ) (dt th : ℝ) (k : ℕ) :
    (step^[k] (mkState c dt th)).cachedWarnings =
      scan (step^[k] (mkState c dt th)).sats th := by
  cases k with
  | zero => rfl
  | succ n =>
      rw [Function.iterate_succ_apply', step_cachedWarnings, step_threshold,
        iter_threshold, mkState_threshold]

lemma iter_mkState_length (c : ℕ) (dt th : ℝ) (k : ℕ) :
    (step^[k] (mkState c dt th)).sats.length = c := by
  rw [iter_sats_length, mkState_sats_length]

lemma crash_constant : initRadius 0 = 7000000 := by
  unfold initRadius R
  norm_num

lemma crash_inequality : normSq (nominalPos 656 (mkSat 0)) ≤ R ^ 2 := by
  rw [normSq_nominalPos_mkSat, crash_constant]
  unfold mu R
  norm_num

lemma nocrash_inequality : ¬ normSq (nominalPos 1 (mkSat 0)) ≤ R ^ 2 := by
  rw [normSq_nominalPos_mkSat, crash_constant]
  unfold mu R
  norm_num

lemma advanceSat_crash : advanceSat 656 (mkSat 0) = { mkSat 0 with inert := true } := by
  unfold advanceSat
  rw [if_neg (by simp [mkSat]), if_pos crash_inequality]

/-- C2: after any `step()` call, `get_proximity_warnings` contains identity
`i` if and only if satellite `i`'s current position is strictly within the
configured threshold distance (compared on squared distances) of at least one
other satellite's current position; membership is characterized by the
positions of the most recent step only, with no memory of earlier steps. -/
theorem C2_proximity_membership (s : SimState) (i : ℕ) :
    i ∈ get_proximity_warnings (step s) ↔
      i < (step s).sats.length ∧
      ∃ j, j < (step s).sats.length ∧ j ≠ i ∧
        distSq (satAt (step s) i).pos (satAt (step s) j).pos <
          (step s).threshold ^ 2 := by
  rw [get_proximity_warnings, Finset.mem_sort, step_cachedWarnings, scan_mem]
  rfl

/-- C3: for every simulation constructed with satellite count `c`,
`get_positions()` — before the first `step()` (k = 0) and after any number of
`step()` calls — returns exactly `c` numeric triples, the `i`-th being
satellite `i`'s current position, reflecting the most recent state. -/
theorem C3_get_positions_shape (c : ℕ) (dt th : ℝ) (s : SimState)
    (h : Simulation.new c dt th = .ok s) (k : ℕ) :
    (get_positions (step^[k] s)).length = c ∧
    ∀ i, i < c →
      (get_positions (step^[k] s)).getD i (0, 0, 0) =
        ((satAt (step^[k] s) i).pos.x, (satAt (step^[k] s) i).pos.y,
          (satAt (step^[k] s) i).pos.z) := by
  obtain ⟨-, rfl⟩ := new_ok_inv h
  constructor
  · rw [get_positions, List.length_map, iter_mkState_length]
  · intro i hi
    rw [get_positions, getD_map_lt _ _ i (by rw [iter_mkState_length]; exact hi) _ defaultSat]
    rfl

/-- Witness for C3 at count 2, timestep 1, threshold 1, after one step. -/
theorem C3_witness :
    (get_positions (step^[1] (mkState 2 1 1))).length = 2 ∧
    ∀ i, i < 2 →
      (get_positions (step^[1] (mkState 2 1 1))).getD i (0, 0, 0) =
        ((satAt (step^[1] (mkState 2 1 1)) i).pos.x,
          (satAt (step^[1] (mkState 2 1 1)) i).pos.y,
          (satAt (step^[1] (mkState 2 1 1)) i).pos.z) :=
  C3_get_positions_shape 2 1 1 (mkState 2 1 1)
    (new_ok 2 1 1 (by norm_num [MAX_SATELLITES])) 1

/-- C4: for every simulation constructed with satellite count `c`,
`get_proximity_warnings()` contains no duplicate identities and every identity
in it lies in `0..c-1`, at every step count (including before the first
step). -/
theorem C4_warning_identities (c : ℕ) (dt th : ℝ) (s : SimState)
    (h : Simulation.new c dt th = .ok s) (k : ℕ) :
    (get_proximity_warnings (step^[k] s)).Nodup ∧
    ∀ i ∈ get_proximity_warnings (step^[k] s), i < c := by
  obtain ⟨-, rfl⟩ := new_ok_inv h
  refine ⟨Finset.sort_nodup _ _, ?_⟩
  intro i hi
  rw [get_proximity_warnings, Finset.mem_sort, cached_eq_scan] at hi
  have h2 := scan_subset_range _ _ hi
  rw [Finset.mem_range, iter_mkState_length] at h2
  exact h2

/-- Witness for C4 at count 3, timestep 1, threshold 2000, after two steps. -/
theorem C4_witness :
    (get_proximity_warnings (step^[2] (mkState 3 1 2000))).Nodup ∧
    ∀ i ∈ get_proximity_warnings (step^[2] (mkState 3 1 2000)), i < 3 :=
  C4_warning_identities 3 1 2000 (mkState 3 1 2000)
    (new_ok 3 1 2000 (by norm_num [MAX_SATELLITES])) 2

/-- C5: in every state reachable by `step()` calls from a valid construction,
every satellite's squared distance to the central body center stays strictly
above `R²` — in particular it is never zero and the position never coincides
with the origin, so `acceleration_at`'s precondition holds at every step —
and whenever an integration step would bring a non-inert satellite's distance
at or below `R`, the propagator flags that satellite inert and freezes its
position rather than letting the distance shrink. -/
theorem C5_no_degenerate_state (c : ℕ) (dt th : ℝ) (s : SimState)
    (h : Simulation.new c dt th = .ok s) :
    (∀ k, ∀ t ∈ (step^[k] s).sats, R ^ 2 < normSq t.pos ∧ t.pos ≠ vzero) ∧
    (∀ t : Sat, t.inert = false → normSq (nominalPos dt t) ≤ R ^ 2 →
      (advanceSat dt t).inert = true ∧ (advanceSat dt t).pos = t.pos) := by
  obtain ⟨-, rfl⟩ := new_ok_inv h
  constructor
  · intro k t ht
    have h1 := iter_above c dt th k t ht
    refine ⟨h1, ?_⟩
    intro hz
    rw [hz] at h1
    have h0 : normSq vzero = 0 := by unfold normSq vzero; norm_num
    rw [h0] at h1
    nlinarith [sq_nonneg R]
  · intro t hinert hcrash
    simp [advanceSat, hinert, hcrash]

/-- Witness for C5 at count 1, timestep 1, threshold 1. -/
theorem C5_witness :
    (∀ k, ∀ t ∈ (step^[k] (mkState 1 1 1)).sats,
      R ^ 2 < normSq t.pos ∧ t.pos ≠ vzero) ∧
    (∀ t : Sat, t.inert = false → normSq (nominalPos 1 t) ≤ R ^ 2 →
      (advanceSat 1 t).inert = true ∧ (advanceSat 1 t).pos = t.pos) :=
  C5_no_degenerate_state 1 1 1 (mkState 1 1 1)
    (new_ok 1 1 1 (by norm_num [MAX_SATELLITES]))

/-- C6: construction fails with InvalidConfiguration — and no simulation
state is produced — exactly when the satellite count is zero or exceeds the
implementation-defined maximum, or the timestep or proximity threshold is
non-positive; a successful construction never clamps the count (the state
holds exactly `c` satellites); count equal to the maximum succeeds while
count one above it fails. -/
theorem C6_construction_validation (c : ℕ) (dt th : ℝ) :
    (Simulation.new c dt th = .error .InvalidConfiguration ↔
      c = 0 ∨ MAX_SATELLITES < c ∨ dt ≤ 0 ∨ th ≤ 0) ∧
    (∀ s, Simulation.new c dt th = .ok s → s.count = c ∧ s.sats.length = c) ∧
    (0 < dt → 0 < th →
      Simulation.new MAX_SATELLITES dt th = .ok (mkState MAX_SATELLITES dt th) ∧
      Simulation.new (MAX_SATELLITES + 1) dt th = .error .InvalidConfiguration) := by
  refine ⟨⟨?_, ?_⟩, ?_, ?_⟩
  · intro h
    by_contra hc
    rw [new_ok c dt th hc] at h
    exact absurd h (by simp)
  · intro hc
    rw [Simulation.new, if_pos hc]
  · intro s hs
    obtain ⟨-, rfl⟩ := new_ok_inv hs
    exact ⟨mkState_count c dt th, mkState_sats_length c dt th⟩
  · intro hdt hth
    constructor
    · refine new_ok _ _ _ ?_
      push_neg
      exact ⟨by norm_num [MAX_SATELLITES], le_refl _, hdt, hth⟩
    · rw [Simulation.new, if_pos (Or.inr (Or.inl (Nat.lt_succ_self _)))]

/-- Witness for C6 at count 5, timestep 1, threshold 1. -/
theorem C6_witness :
    (Simulation.new 5 1 1 = .error .InvalidConfiguration ↔
      5 = 0 ∨ MAX_SATELLITES < 5 ∨ (1 : ℝ) ≤ 0 ∨ (1 : ℝ) ≤ 0) ∧
    (∀ s, Simulation.new 5 1 1 = .ok s → s.count = 5 ∧ s.sats.length = 5) ∧
    ((0 : ℝ) < 1 → (0 : ℝ) < 1 →
      Simulation.new MAX_SATELLITES 1 1 = .ok (mkState MAX_SATELLITES 1 1) ∧
      Simulation.new (MAX_SATELLITES + 1) 1 1 = .error .InvalidConfiguration) :=
  C6_construction_validation 5 1 1

/-- C7: two simulations constructed with identical parameters and stepped
identically produce identical `get_positions` sequences at every
corresponding point, and the proximity-warning result is canonical — a
duplicate-free sequence whose membership coincides with the canonical cached
set, independent of any iteration order. -/
theorem C7_determinism_canonical (c : ℕ) (dt th : ℝ) (s1 s2 : SimState)
    (h1 : Simulation.new c dt th = .ok s1) (h2 : Simulation.new c dt th = .ok s2)
    (k : ℕ) :
    get_positions (step^[k] s1) = get_positions (step^[k] s2) ∧
    get_proximity_warnings (step^[k] s1) = get_proximity_warnings (step^[k] s2) ∧
    (get_proximity_warnings (step^[k] s1)).Nodup ∧
    ∀ i, i ∈ get_proximity_warnings (step^[k] s1) ↔
      i ∈ (step^[k] s1).cachedWarnings := by
  obtain ⟨-, rfl⟩ := new_ok_inv h1
  obtain ⟨-, h2'⟩ := new_ok_inv h2
  subst h2'
  exact ⟨rfl, rfl, Finset.sort_nodup _ _, fun i => Finset.mem_sort _⟩

/-- Witness for C7 at count 2, timestep 1, threshold 1, after three steps. -/
theorem C7_witness :
    get_positions (step^[3] (mkState 2 1 1)) =
      get_positions (step^[3] (mkState 2 1 1)) ∧
    get_proximity_warnings (step^[3] (mkState 2 1 1)) =
      get_proximity_warnings (step^[3] (mkState 2 1 1)) ∧
    (get_proximity_warnings (step^[3] (mkState 2 1 1))).Nodup ∧
    ∀ i, i ∈ get_proximity_warnings (step^[3] (mkState 2 1 1)) ↔
      i ∈ (step^[3] (mkState 2 1 1)).cachedWarnings :=
  C7_determinism_canonical 2 1 1 (mkState 2 1 1) (mkState 2 1 1)
    (new_ok 2 1 1 (by norm_num [MAX_SATELLITES]))
    (new_ok 2 1 1 (by norm_num [MAX_SATELLITES])) 3

/-- C8: each `step()` advances the clock's elapsed simulated time by exactly
one fixed timestep — after `k` steps the elapsed time equals `k·Δt` — and the
elapsed time is monotonically non-decreasing from step to step. -/
theorem C8_clock_advance (c : ℕ) (dt th : ℝ) (s : SimState)
    (h : Simulation.new c dt th = .ok s) (k : ℕ) :
    (step^[k] s).elapsed = k * dt ∧
    (step^[k] s).elapsed ≤ (step^[k + 1] s).elapsed := by
  obtain ⟨⟨-, -, hdt, -⟩, rfl⟩ := new_ok_inv h
  have h1 : ∀ m : ℕ, (step^[m] (mkState c dt th)).elapsed = m * dt := by
    intro m
    rw [iter_elapsed, mkState_dt]
    show (0 : ℝ) + m * dt = m * dt
    ring
  refine ⟨h1 k, ?_⟩
  rw [h1 k, h1 (k + 1)]
  push_cast
  nlinarith [hdt]

/-- Witness for C8 at count 1, timestep 10, threshold 1, after four steps. -/
theorem C8_witness :
    (step^[4] (mkState 1 10 1)).elapsed = (4 : ℕ) * 10 ∧
    (step^[4] (mkState 1 10 1)).elapsed ≤ (step^[4 + 1] (mkState 1 10 1)).elapsed :=
  C8_clock_advance 1 10 1 (mkState 1 10 1)
    (new_ok 1 10 1 (by norm_num [MAX_SATELLITES])) 4

/-- C10: `get_positions` and `get_proximity_warnings` are pure queries —
invoked as facade calls they return the simulation state unchanged, calls in
either order between two consecutive steps return the same values, and the
warning set and position list describe the same most recent state: a warning
for `i` holds exactly when satellite `i`'s current position lies within the
threshold of another satellite's current position. -/
theorem C10_query_purity (c : ℕ) (dt th : ℝ) (s : SimState)
    (h : Simulation.new c dt th = .ok s) (k : ℕ) :
    (get_positions_call (step^[k] s)).2 = step^[k] s ∧
    (get_proximity_warnings_call (step^[k] s)).2 = step^[k] s ∧
    (get_positions_call ((get_proximity_warnings_call (step^[k] s)).2)).1 =
      (get_positions_call (step^[k] s)).1 ∧
    (get_proximity_warnings_call ((get_positions_call (step^[k] s)).2)).1 =
      (get_proximity_warnings_call (step^[k] s)).1 ∧
    ∀ i, i ∈ (get_proximity_warnings_call (step^[k] s)).1 ↔
      i < c ∧ ∃ j, j < c ∧ j ≠ i ∧
        distSq (satAt (step^[k] s) i).pos (satAt (step^[k] s) j).pos < th ^ 2 := by
  obtain ⟨-, rfl⟩ := new_ok_inv h
  refine ⟨rfl, rfl, rfl, rfl, ?_⟩
  intro i
  show i ∈ get_proximity_warnings _ ↔ _
  rw [get_proximity_warnings, Finset.mem_sort, cached_eq_scan, scan_mem,
    iter_mkState_length]
  rfl

/-- Witness for C10 at count 2, timestep 1, threshold 1, after one step. -/
theorem C10_witness :
    (get_positions_call (step^[1] (mkState 2 1 1))).2 = step^[1] (mkState 2 1 1) ∧
    (get_proximity_warnings_call (step^[1] (mkState 2 1 1))).2 =
      step^[1] (mkState 2 1 1) ∧
    (get_positions_call
        ((get_proximity_warnings_call (step^[1] (mkState 2 1 1))).2)).1 =
      (get_positions_call (step^[1] (mkState 2 1 1))).1 ∧
    (get_proximity_warnings_call
        ((get_positions_call (step^[1] (mkState 2 1 1))).2)).1 =
      (get_proximity_warnings_call (step^[1] (mkState 2 1 1))).1 ∧
    ∀ i, i ∈ (get_proximity_warnings_call (step^[1] (mkState 2 1 1))).1 ↔
      i < 2 ∧ ∃ j, j < 2 ∧ j ≠ i ∧
        distSq (satAt (step^[1] (mkState 2 1 1)) i).pos
          (satAt (step^[1] (mkState 2 1 1)) j).pos < (1 : ℝ) ^ 2 :=
  C10_query_purity 2 1 1 (mkState 2 1 1)
    (new_ok 2 1 1 (by norm_num [MAX_SATELLITES])) 1

/-- C1 counterexample: in the simulation constructed with one satellite,
timestep 656 s and threshold 1000 m, the first `step()` does not move every
satellite to `position + (new velocity)·Δt`: satellite 0's semi-implicit
update would bring it to a distance at or below R, so the edge-case policy of
spec section 4.3 freezes it instead of applying the rule. -/
theorem C1_counterexample :
    Simulation.new 1 656 1000 = .ok (mkState 1 656 1000) ∧
    (step (mkState 1 656 1000)).sats.map Sat.pos ≠
      (mkState 1 656 1000).sats.map (nominalPos 656) := by
  refine ⟨new_ok 1 656 1000 (by norm_num [MAX_SATELLITES]), ?_⟩
  have hsats : (mkState 1 656 1000).sats = [mkSat 0] := by
    show (List.range 1).map mkSat = [mkSat 0]
    simp [List.range_succ]
  have hdt : (mkState 1 656 1000).dt = 656 := rfl
  intro hEq
  rw [step_sats, hsats, hdt, List.map_cons, List.map_nil, List.map_cons,
    List.map_nil, List.map_cons, List.map_nil, advanceSat_crash] at hEq
  have hhead : ({ mkSat 0 with inert := true } : Sat).pos = nominalPos 656 (mkSat 0) :=
    List.head_eq_of_cons_eq hEq
  rw [nominalPos_mkSat] at hhead
  have hy := congrArg Vec3.y hhead
  have hy0 : ({ mkSat 0 with inert := true } : Sat).pos.y = 0 := rfl
  rw [hy0] at hy
  have hpos : 0 < Real.sqrt (mu / initRadius 0) :=
    Real.sqrt_pos.mpr (div_pos mu_pos (initRadius_pos 0))
  simp only at hy
  nlinarith [hy, hpos]

/-- C1 (amended): every `step()` call processes every satellite of the
registry (the registry length is preserved), and advances every satellite
that is not flagged inert and whose semi-implicit update keeps it strictly
above the surface by exactly the spec 4.3 rule: acceleration `a₀ =
acceleration_at position`, new velocity `velocity + a₀·Δt`, new position
`position + (new velocity)·Δt`; a non-inert satellite whose update would land
at or below R is flagged inert with its state frozen, and an inert satellite
is left unchanged. -/
theorem C1_semi_implicit_rule (s : SimState) (i : ℕ) (hi : i < s.sats.length) :
    (step s).sats.length = s.sats.length ∧
    ((satAt s i).inert = false →
      R ^ 2 < normSq (nominalPos s.dt (satAt s i)) →
      satAt (step s) i =
        { pos := vadd (satAt s i).pos
            (smul s.dt (vadd (satAt s i).vel
              (smul s.dt (acceleration_at (satAt s i).pos))))
          vel := vadd (satAt s i).vel (smul s.dt (acceleration_at (satAt s i).pos))
          inert := false }) ∧
    ((satAt s i).inert = false →
      normSq (nominalPos s.dt (satAt s i)) ≤ R ^ 2 →
      satAt (step s) i = { satAt s i with inert := true }) ∧
    ((satAt s i).inert = true → satAt (step s) i = satAt s i) := by
  refine ⟨step_sats_length s, ?_, ?_, ?_⟩
  · intro hinert habove
    rw [satAt_step s i hi]
    unfold advanceSat
    rw [if_neg (by simp [hinert]), if_neg (not_le.mpr habove)]
    rfl
  · intro hinert hcrash
    rw [satAt_step s i hi]
    unfold advanceSat
    rw [if_neg (by simp [hinert]), if_pos hcrash]
  · intro hinert
    rw [satAt_step s i hi]
    unfold advanceSat
    rw [if_pos hinert]

/-- Witness for the amended C1 at the one-satellite simulation with
timestep 1 and threshold 1, satellite 0. -/
theorem C1_witness :
    (step (mkState 1 1 1)).sats.length = (mkState 1 1 1).sats.length ∧
    ((satAt (mkState 1 1 1) 0).inert = false →
      R ^ 2 < normSq (nominalPos (mkState 1 1 1).dt (satAt (mkState 1 1 1) 0)) →
      satAt (step (mkState 1 1 1)) 0 =
        { pos := vadd (satAt (mkState 1 1 1) 0).pos
            ((smul (mkState 1 1 1).dt (vadd (satAt (mkState 1 1 1) 0).vel
              (smul (mkState 1 1 1).dt
                (acceleration_at (satAt (mkState 1 1 1) 0).pos)))))
          vel := vadd (satAt (mkState 1 1 1) 0).vel
            (smul (mkState 1 1 1).dt (acceleration_at (satAt (mkState 1 1 1) 0).pos))
          inert := false }) ∧
    ((satAt (mkState 1 1 1) 0).inert = false →
      normSq (nominalPos (mkState 1 1 1).dt (satAt (mkState 1 1 1) 0)) ≤ R ^ 2 →
      satAt (step (mkState 1 1 1)) 0 = { satAt (mkState 1 1 1) 0 with inert := true }) ∧
    ((satAt (mkState 1 1 1) 0).inert = true →
      satAt (step (mkState 1 1 1)) 0 = satAt (mkState 1 1 1) 0) :=
  C1_semi_implicit_rule (mkState 1 1 1) 0 (by rw [mkState_sats_length]; norm_num)

end
